import Mathlib

/-!
# backend-blog: authentication, validation and engagement handlers of `server.js`

A shallow embedding of the request handlers of `src/server.js` and the properties the
specification states about them.

* JavaScript strings are sequences of UTF-16 code units (`JSString`).
* Regular expressions are embedded as syntax trees run by a backtracking matcher that
  returns every position at which a match can end.
* The document database is an explicit `Store` (lists of documents in natural order) where a
  claim speaks about stored state, and an oracle (a function or a result passed in) where only
  the outcome of a call matters. Library calls that cannot be computed here
  (`jwt.verify`, `jwt.sign`, `bcrypt`, `nanoid`) are oracles as well.
* A handler yields an `Outcome`: the response it wrote, the rejection that nothing handled,
  or the `TypeError` it threw while reading a field the request body does not have.
-/

set_option autoImplicit false

namespace BackendBlog

/-! ## Strings -/

/-- A JavaScript string: its UTF-16 code units. -/
abbrev JSString := List Nat

/-- The code units of a literal; exact for characters of the Basic Multilingual Plane. -/
def js (s : String) : JSString := s.toList.map Char.toNat

/-- The segments of `s.split(sep)` for a one-unit separator; `"".split(sep)` is `[""]`. -/
def split (sep : Nat) : JSString → List JSString
  | [] => [[]]
  | c :: cs =>
    if c = sep then [] :: split sep cs
    else
      match split sep cs with
      | [] => [[c]]
      | seg :: segs => (c :: seg) :: segs

/-! ## Regular expressions -/

/-- The fragment of JavaScript regular expressions that `server.js` uses. -/
inductive Regex where
  /-- One code unit of a class: `\d`, `[a-z]`, `.`, a literal. -/
  | cls (p : Nat → Bool)
  /-- Concatenation. -/
  | seq (a b : Regex)
  /-- Repetition `a*`. -/
  | star (a : Regex)
  /-- Bounded repetition `a{lo,hi}`. -/
  | rep (a : Regex) (lo hi : Nat)
  /-- Positive lookahead `(?=a)`. -/
  | look (a : Regex)
  /-- Start of input `^` (no `m` flag). -/
  | bol
  /-- End of input `$` (no `m` flag). -/
  | eol

/-- End positions of `a*` from `i`, where `f` gives the end positions of one `a`. An
iteration that consumes nothing is dropped, as in ECMAScript; `fuel` bounds the number of
iterations and the length of the input is always enough. -/
def starFrom (f : Nat → List Nat) : Nat → Nat → List Nat
  | 0, i => [i]
  | fuel + 1, i => i :: ((f i).filter fun j => decide (i < j)).flatMap (starFrom f fuel)

/-- End positions of `a{lo,hi}` from `i`. -/
def repFrom (f : Nat → List Nat) : Nat → Nat → Nat → List Nat
  | 0, 0, i => [i]
  | 0, hi + 1, i => i :: (f i).flatMap (repFrom f 0 hi)
  | _ + 1, 0, _ => []
  | lo + 1, hi + 1, i => (f i).flatMap (repFrom f lo hi)

/-- Every position at which a match of the expression that starts at `i` can end. -/
def Regex.ends (s : JSString) : Regex → Nat → List Nat
  | .cls p, i =>
    match s[i]? with
    | some c => if p c then [i + 1] else []
    | none => []
  | .seq a b, i => (a.ends s i).flatMap (b.ends s)
  | .star a, i => starFrom (a.ends s) s.length i
  | .rep a lo hi, i => repFrom (a.ends s) lo hi i
  | .look a, i => if (a.ends s i).isEmpty then [] else [i]
  | .bol, i => if i = 0 then [i] else []
  | .eol, i => if i = s.length then [i] else []

/-- The method `RegExp.prototype.test`: a match starts at some position of the input. -/
def Regex.test (r : Regex) (s : JSString) : Bool :=
  (List.range (s.length + 1)).any fun i => !(r.ends s i).isEmpty

/-- Line terminators, which `.` does not match: LF, CR, U+2028, U+2029. -/
def isLineTerminator (c : Nat) : Bool := c = 10 || c = 13 || c = 8232 || c = 8233

/-- The class `\d`. -/
def isDigit (c : Nat) : Bool := decide (48 ≤ c ∧ c ≤ 57)

/-- The class `[a-z]`. -/
def isLower (c : Nat) : Bool := decide (97 ≤ c ∧ c ≤ 122)

/-- The class `[A-Z]`. -/
def isUpper (c : Nat) : Bool := decide (65 ≤ c ∧ c ≤ 90)

/-- The class `\w`. -/
def isWord (c : Nat) : Bool := isDigit c || isLower c || isUpper c || c = 95

/-- The wildcard `.` (no `s` flag). -/
def Regex.dot : Regex := .cls fun c => !isLineTerminator c

/-- One or more: `a+`. -/
def Regex.plus (a : Regex) : Regex := .seq a (.star a)

/-- Zero or one: `a?`. -/
def Regex.opt (a : Regex) : Regex := .rep a 0 1

/-- A literal code unit. -/
def Regex.chr (c : Nat) : Regex := .cls fun d => d = c

/-- The group `([\.-]?\w+)` of the email pattern. -/
def sepWord : Regex := .seq (Regex.opt (.cls fun c => c = 46 || c = 45)) (Regex.plus (.cls isWord))

/-- The pattern `/^\w+([\.-]?\w+)*@\w+([\.-]?\w+)*(\.\w{2,3})+$/` (server.js line 24). -/
def emailRegex : Regex :=
  .seq .bol <|
  .seq (Regex.plus (.cls isWord)) <|
  .seq (.star sepWord) <|
  .seq (Regex.chr 64) <|
  .seq (Regex.plus (.cls isWord)) <|
  .seq (.star sepWord) <|
  .seq (Regex.plus (.seq (Regex.chr 46) (.rep (.cls isWord) 2 3))) .eol

/-- The pattern `/^(?=.*\d)(?=.*[a-z])(?=.*[A-Z]).{6,20}$/` (server.js line 25). -/
def passwordRegex : Regex :=
  .seq .bol <|
  .seq (.look (.seq (.star .dot) (.cls isDigit))) <|
  .seq (.look (.seq (.star .dot) (.cls isLower))) <|
  .seq (.look (.seq (.star .dot) (.cls isUpper))) <|
  .seq (.rep .dot 6 20) .eol

/-- Code units at positions `i ≤ k < j` of `s` exist and all satisfy `p`. -/
def AllIn (p : Nat → Bool) (s : JSString) (i j : Nat) : Prop :=
  ∀ k, i ≤ k → k < j → ∃ c, s[k]? = some c ∧ p c = true

/-! ## Responses -/

/-- The object `formatDatatoSend` builds. -/
structure AuthData where
  access_token : String
  profile_img : JSString
  username : JSString
  fullname : JSString
  deriving DecidableEq, Repr

/-- The object at `content` of a blog: its editor blocks, each kept as raw text. -/
structure Content where
  blocks : List String
  deriving DecidableEq, Repr

/-- The counters at `activity` of a blog. -/
structure Activity where
  total_likes : Int
  total_reads : Int
  deriving DecidableEq, Repr

/-- The populated `author` of a blog: the `personal_info` paths the query selects. -/
structure AuthorView where
  _id : Nat
  fullname : JSString
  username : JSString
  profile_img : JSString
  deriving DecidableEq, Repr

/-- A blog document as a query with a projection returns it: a path that the projection
leaves out is `none` (reads as `undefined`). -/
structure BlogView where
  _id : Nat
  title : Option JSString
  des : Option JSString
  content : Option Content
  banner : Option JSString
  activity : Option Activity
  publishedAt : Option Nat
  blog_id : Option JSString
  tags : Option (List JSString)
  draft : Option Bool
  author : Option AuthorView
  deriving DecidableEq, Repr

/-- The JSON bodies the handlers send. -/
inductive Body where
  /-- The body `{ error }`. -/
  | error (msg : String)
  /-- The body of `formatDatatoSend`. -/
  | auth (d : AuthData)
  /-- The body `{ liked_by_user }`. -/
  | liked_by_user (b : Bool)
  /-- The body `{ blog }`. -/
  | blog (b : BlogView)
  /-- The body `{ id }`. -/
  | id (blog_id : JSString)
  deriving DecidableEq, Repr

/-- What `res.status(status).json(body)` writes. -/
structure Response where
  status : Nat
  body : Body
  deriving DecidableEq, Repr

/-- How the handling of a request ends: a response was written, or a promise was rejected
(or a callback threw) where no handler catches it, so that no response is written. -/
inductive Outcome where
  /-- A response was written. -/
  | responded (r : Response)
  /-- An unhandled rejection carrying `err`; the request gets no response. -/
  | unhandled (err : String)
  /-- The handler threw a `TypeError` while it ran synchronously (it read a property of
  `undefined` or `null`); the error handler of Express answers with status 500. -/
  | threw
  deriving DecidableEq, Repr

/-! ## Documents and the store -/

/-- The object at `personal_info` of a user. -/
structure PersonalInfo where
  fullname : JSString
  email : JSString
  password : JSString
  username : JSString
  profile_img : JSString
  deriving DecidableEq, Repr

/-- The counters at `account_info` of a user. -/
structure AccountInfo where
  total_posts : Int
  total_reads : Int
  deriving DecidableEq, Repr

/-- A document of the `User` collection. -/
structure User where
  _id : Nat
  personal_info : PersonalInfo
  google_auth : Bool
  account_info : AccountInfo
  blogs : List Nat
  deriving DecidableEq, Repr

/-- A document of the `Blog` collection. -/
structure Blog where
  _id : Nat
  blog_id : JSString
  title : JSString
  des : JSString
  banner : JSString
  content : Content
  tags : List JSString
  draft : Bool
  author : Nat
  activity : Activity
  publishedAt : Nat
  deriving DecidableEq, Repr

/-- A document of the `Notification` collection. -/
structure Notification where
  _id : Nat
  type : String
  blog : Nat
  notification_for : Nat
  user : Nat
  deriving DecidableEq, Repr

/-- The collections, each in natural (insertion) order. -/
structure Store where
  users : List User
  blogs : List Blog
  notifications : List Notification
  deriving DecidableEq, Repr

/-- The update of `findOneAndUpdate`: the first document that matches is changed. -/
def updateFirst {α : Type} (p : α → Bool) (f : α → α) : List α → List α
  | [] => []
  | x :: xs => if p x then f x :: xs else x :: updateFirst p f xs

/-! ## `verifyJWT` (server.js lines 54-71) -/

/-- The decoded payload of a token; `id` is `none` when the payload has no `id`. -/
structure Payload where
  id : Option Nat
  deriving DecidableEq, Repr

/-- What the middleware did: the response it wrote (if any), `req.user` afterwards
(`none` is `undefined`), and how many times it called `next`. -/
structure MiddlewareResult where
  response : Option Response
  user : Option Nat
  nextCalls : Nat
  deriving DecidableEq, Repr

/-- The value of `authHeader && authHeader.split(" ")[1]`: `none` stands for `undefined`.
The empty string is falsy, so `&&` yields the empty header itself. -/
def bearerToken (authHeader : Option JSString) : Option JSString :=
  match authHeader with
  | none => none
  | some h => if h = [] then some [] else (split 32 h)[1]?

/-- The middleware `verifyJWT`. `verify` is `jwt.verify(token, SECRET_ACCESS_KEY, _)`: it
gives the callback an error or the payload. `authorization` is
`req.headers['authorization']`. -/
def verifyJWT (verify : JSString → Except String Payload) (authorization : Option JSString) :
    MiddlewareResult :=
  match bearerToken authorization with
  | none => { response := some ⟨401, .error "No access token"⟩, user := none, nextCalls := 0 }
  | some token =>
    match verify token with
    | .error _ =>
      { response := some ⟨403, .error "Access token is invalid"⟩, user := none, nextCalls := 0 }
    | .ok user => { response := none, user := user.id, nextCalls := 1 }

/-! ## `formatDatatoSend` and `generateUsername` (server.js lines 73-93) -/

/-- The function `formatDatatoSend`; `sign` is `jwt.sign({ id }, SECRET_ACCESS_KEY)`. -/
def formatDatatoSend (sign : Nat → String) (user : User) : AuthData :=
  { access_token := sign user._id
    profile_img := user.personal_info.profile_img
    username := user.personal_info.username
    fullname := user.personal_info.fullname }

/-- The expression `email.split('@')[0]`. -/
def localPart (email : JSString) : JSString := (split 64 email).headD []

/-- The query `User.exists({ 'personal_info.username': username })`, as a truth value. -/
def usernameExists (users : List User) (username : JSString) : Bool :=
  users.any fun u => u.personal_info.username = username

/-- The function `generateUsername`. `existsError` is the rejection of `User.exists` when
the query fails; `nanoid` is the value `nanoid()` returns, of which
`.substring(0, 5)` keeps the first five code units. -/
def generateUsername (existsError : Option String) (users : List User) (nanoid : JSString)
    (email : JSString) : Except String JSString :=
  let username := localPart email
  match existsError with
  | some e => .error e
  | none =>
    let isUsernameNotUnique := usernameExists users username
    if isUsernameNotUnique then .ok (username ++ nanoid.take 5) else .ok username

/-! ## `POST /signup` (server.js lines 111-153) -/

/-- The body of a signup request. -/
structure SignupBody where
  fullname : JSString
  email : JSString
  password : JSString
  deriving DecidableEq, Repr

/-- The message sent when the password pattern does not match. -/
def passwordMessage : String :=
  "Please enter a valid password. It must contain at least one digit, one lowercase letter, one uppercase letter, and be at least 8 characters long."

/-- The checks at the head of the signup handler (lines 116-132): the response of the first
check that fails, or `none` when the request passes all four. -/
def signupValidation (b : SignupBody) : Option Response :=
  if b.fullname.length < 3 then some ⟨403, .error "Please enter your complete name"⟩
  else if b.email.length = 0 then some ⟨403, .error "Enter your valid email Id"⟩
  else if !emailRegex.test b.email then some ⟨403, .error "Email is invalid"⟩
  else if !passwordRegex.test b.password then some ⟨403, .error passwordMessage⟩
  else none

/-- The user document the signup handler hands to `save`. -/
structure NewUser where
  fullname : JSString
  email : JSString
  password : JSString
  username : JSString
  deriving DecidableEq, Repr

/-- The error of a rejected `save`. -/
structure SaveError where
  code : Option Nat
  message : String
  deriving DecidableEq, Repr

/-- The collaborators of the signup handler. -/
structure SignupEnv where
  /-- The call `bcrypt.hash(password, 10, _)`. -/
  hash : JSString → Except String JSString
  /-- The value of `nanoid()`. -/
  nanoid : JSString
  /-- The rejection of `User.exists`, if the query fails. -/
  existsError : Option String
  /-- The call `user.save()`. -/
  save : NewUser → Except SaveError User
  /-- The call `jwt.sign`. -/
  sign : Nat → String

/-- The signup handler. `generateUsername` is awaited in an async callback with no
`try`, so its rejection is not handled. -/
def signup (env : SignupEnv) (users : List User) (b : SignupBody) : Outcome :=
  match signupValidation b with
  | some r => .responded r
  | none =>
    match env.hash b.password with
    | .error e => .responded ⟨500, .error e⟩
    | .ok hashed_password =>
      match generateUsername env.existsError users env.nanoid b.email with
      | .error e => .unhandled e
      | .ok username =>
        match env.save ⟨b.fullname, b.email, hashed_password, username⟩ with
        | .ok u => .responded ⟨200, .auth (formatDatatoSend env.sign u)⟩
        | .error err =>
          if err.code = some 11000 then .responded ⟨500, .error "Email already exists"⟩
          else .responded ⟨500, .error err.message⟩

/-! ## `POST /signin` (server.js lines 155-185) -/

/-- The body of a signin request. -/
structure SigninBody where
  email : JSString
  password : JSString
  deriving DecidableEq, Repr

/-- The outcome of a signin and the arguments of every call of `bcrypt.compare` made. -/
structure SigninResult where
  outcome : Outcome
  compareCalls : List (JSString × JSString)
  deriving DecidableEq, Repr

/-- The signin handler. `findError` is the rejection of `User.findOne`, if the query
fails; `compare` is `bcrypt.compare(password, hash, _)`. -/
def signin (sign : Nat → String) (compare : JSString → JSString → Except String Bool)
    (findError : Option String) (users : List User) (b : SigninBody) : SigninResult :=
  match findError with
  | some e => ⟨.responded ⟨500, .error e⟩, []⟩
  | none =>
    match users.find? fun u => u.personal_info.email = b.email with
    | none => ⟨.responded ⟨403, .error "No such email found!"⟩, []⟩
    | some user =>
      if !user.google_auth then
        let calls := [(b.password, user.personal_info.password)]
        match compare b.password user.personal_info.password with
        | .error _ => ⟨.responded ⟨403, .error "Something went wrong"⟩, calls⟩
        | .ok result =>
          if !result then ⟨.responded ⟨403, .error "Password is incorrect"⟩, calls⟩
          else ⟨.responded ⟨200, .auth (formatDatatoSend sign user)⟩, calls⟩
      else
        ⟨.responded ⟨403, .error "Account already registered. Kindly login with Google "⟩, []⟩

/-! ## `POST /create-blog` (server.js lines 406-478) -/

/-- The object at `content` of a request body; `blocks` is `none` when the object has no
`blocks` (or has null there). -/
structure BodyContent where
  blocks : Option (List String)
  deriving DecidableEq, Repr

/-- The body of a create-blog request, as `express.json()` hands it over unchecked. A field
is `none` when the body does not have it or has null there: reading a property of it throws
a `TypeError`. `draft` is the truthiness of the field; `id` is `none` when absent. -/
structure CreateBlogBody where
  title : Option JSString
  des : Option JSString
  banner : Option JSString
  tags : Option (List JSString)
  content : Option BodyContent
  draft : Bool
  id : Option JSString
  deriving DecidableEq, Repr

/-- The fields the handler writes to a blog document; `none` is `undefined`. -/
structure BlogFields where
  title : JSString
  des : Option JSString
  banner : Option JSString
  content : Option BodyContent
  tags : List JSString
  draft : Bool
  deriving DecidableEq, Repr

/-- The database calls the create-blog handler issues. -/
inductive DbCall where
  /-- The call `Blog.findOneAndUpdate({ blog_id }, update)`. -/
  | blogFindOneAndUpdate (blog_id : JSString) (update : BlogFields)
  /-- The call `new Blog({ ...doc, author, blog_id }).save()`. -/
  | blogSave (doc : BlogFields) (author : Nat) (blog_id : JSString)
  /-- The call `User.findOneAndUpdate({ _id }, { $inc: total_posts, $push: blogs })`. -/
  | userFindOneAndUpdate (_id : Nat) (incTotalPosts : Int) (pushBlog : Nat)
  deriving DecidableEq, Repr

/-- The collaborators of the create-blog handler. -/
structure CreateBlogEnv where
  /-- The value of `nanoid()`. -/
  nanoid : JSString
  /-- The method `String.prototype.toLowerCase`. -/
  toLowerCase : JSString → JSString
  /-- The rejection of `Blog.findOneAndUpdate`, if it fails. -/
  updateBlogError : Option String
  /-- The call `blog.save()`: the `_id` of the saved document, or the rejection. -/
  saveBlog : Except String Nat
  /-- The rejection of `User.findOneAndUpdate`, if it fails. -/
  updateUserError : Option String

/-- The outcome of a create-blog request and the database calls issued, in order. -/
structure CreateBlogResult where
  outcome : Outcome
  calls : List DbCall
  deriving DecidableEq, Repr

/-- How the checks at the head of the create-blog handler end. -/
inductive Validation where
  /-- Every check passed; the handler goes on. -/
  | pass
  /-- A check failed and answered with `r`. -/
  | reject (r : Response)
  /-- A check read `.length` (or `.blocks`) of an absent field and threw a `TypeError`. -/
  | throws
  deriving DecidableEq, Repr

/-- The checks at the head of the create-blog handler (lines 411-434), in the order the
handler runs them. Each check first reads `.length` of its field, which throws when the
field is absent. -/
def createBlogValidation (b : CreateBlogBody) : Validation :=
  match b.title with
  | none => .throws
  | some title =>
    if title.length = 0 then .reject ⟨403, .error "Kindly provide the title as well"⟩
    else if !b.draft then
      match b.des with
      | none => .throws
      | some des =>
        if des.length = 0 || decide (des.length > 200) then
          .reject ⟨403, .error "Kindly provide the blog description as well"⟩
        else
          match b.banner with
          | none => .throws
          | some banner =>
            if banner.length = 0 then
              .reject ⟨403, .error "Kindly upload the suitable banner as well"⟩
            else
              match b.content.bind fun c => c.blocks with
              | none => .throws
              | some blocks =>
                if blocks.length = 0 then .reject ⟨403, .error "Content can't be empty"⟩
                else
                  match b.tags with
                  | none => .throws
                  | some tags =>
                    if tags.length = 0 || decide (tags.length > 10) then
                      .reject ⟨403, .error "Provide the tags as well for better reach"⟩
                    else .pass
    else .pass

/-- The class `[a-zA-Z0-9]`. -/
def isAlnum (c : Nat) : Bool := isLower c || isUpper c || isDigit c

/-- The class `\s`: white space and line terminators. -/
def isSpace (c : Nat) : Bool :=
  c = 9 || c = 10 || c = 11 || c = 12 || c = 13 || c = 32 || c = 160 || c = 5760 ||
  decide (8192 ≤ c ∧ c ≤ 8202) || c = 8232 || c = 8233 || c = 8239 || c = 8287 ||
  c = 12288 || c = 65279

/-- The replacement `.replace(/\s+/g, "-")`; `inRun` says that the unit before was a space. -/
def replaceSpaceRuns (inRun : Bool) : JSString → JSString
  | [] => []
  | c :: cs =>
    if isSpace c then
      if inRun then replaceSpaceRuns true cs else 45 :: replaceSpaceRuns true cs
    else c :: replaceSpaceRuns false cs

/-- The method `String.prototype.trim`. -/
def trim (s : JSString) : JSString :=
  ((s.dropWhile isSpace).reverse.dropWhile isSpace).reverse

/-- The expression
`title.replace(/[^a-zA-Z0-9]/g, ' ').replace(/\s+/g, "-").trim()`. -/
def slug (title : JSString) : JSString :=
  trim (replaceSpaceRuns false (title.map fun c => if isAlnum c then c else 32))

/-- The create-blog handler, for a request that passed `verifyJWT` with `req.user = authorId`.
After the checks, `tags.map` throws when `tags` is absent; `title` is a string by then. -/
def createBlog (env : CreateBlogEnv) (authorId : Nat) (b : CreateBlogBody) : CreateBlogResult :=
  match createBlogValidation b with
  | .throws => ⟨.threw, []⟩
  | .reject r => ⟨.responded r, []⟩
  | .pass =>
    match b.tags with
    | none => ⟨.threw, []⟩
    | some bodyTags =>
      let tags := bodyTags.map env.toLowerCase
      let title := b.title.getD []
      let idGiven : Option JSString := b.id.filter fun i => i ≠ []
      match idGiven with
      | some blog_id =>
        let call := DbCall.blogFindOneAndUpdate blog_id
          ⟨title, b.des, b.banner, b.content, tags, b.draft⟩
        match env.updateBlogError with
        | none => ⟨.responded ⟨200, .id blog_id⟩, [call]⟩
        | some e => ⟨.responded ⟨500, .error e⟩, [call]⟩
      | none =>
        let blog_id := slug title ++ env.nanoid
        let save := DbCall.blogSave ⟨title, b.des, b.banner, b.content, tags, b.draft⟩
          authorId blog_id
        match env.saveBlog with
        | .error e => ⟨.responded ⟨500, .error e⟩, [save]⟩
        | .ok saved =>
          let incrementVal : Int := if b.draft then 0 else 1
          let update := DbCall.userFindOneAndUpdate authorId incrementVal saved
          match env.updateUserError with
          | none => ⟨.responded ⟨200, .id blog_id⟩, [save, update]⟩
          | some _ =>
            ⟨.responded
              ⟨500, .error " Something went wrong while updating the total post numbers "⟩,
              [save, update]⟩

/-! ## `POST /get-blog` (server.js lines 480-508) -/

/-- The body of a get-blog request; `draft` is the truthiness of the field (absent is
falsy), `mode` is `none` when the field is absent. -/
structure GetBlogBody where
  blog_id : JSString
  draft : Bool
  mode : Option JSString
  deriving DecidableEq, Repr

/-- The paths of `.select("title des content banner activity publishedAt blog_id tags")`. -/
def getBlogFields : List String :=
  ["title", "des", "content", "banner", "activity", "publishedAt", "blog_id", "tags"]

/-- A path of a projected document: present when the projection names it. -/
def pick {α : Type} (fields : List String) (name : String) (v : α) : Option α :=
  if name ∈ fields then some v else none

/-- The populated author:
`.populate("author", "personal_info.fullname personal_info.username personal_info.profile_img")`;
`none` (null) when no user has the id. -/
def populateAuthor (users : List User) (author : Nat) : Option AuthorView :=
  (users.find? fun u => u._id = author).map fun u =>
    ⟨u._id, u.personal_info.fullname, u.personal_info.username, u.personal_info.profile_img⟩

/-- The document a query with the inclusive projection `fields` and a populated `author`
returns for the stored blog `b`: `_id`, the paths named, and the populated path. A path
that is not named, `draft` among them, is absent, and no schema default fills it in. -/
def select (fields : List String) (users : List User) (b : Blog) : BlogView :=
  { _id := b._id
    title := pick fields "title" b.title
    des := pick fields "des" b.des
    content := pick fields "content" b.content
    banner := pick fields "banner" b.banner
    activity := pick fields "activity" b.activity
    publishedAt := pick fields "publishedAt" b.publishedAt
    blog_id := pick fields "blog_id" b.blog_id
    tags := pick fields "tags" b.tags
    draft := pick fields "draft" b.draft
    author := populateAuthor users b.author }

/-- The update `{ $inc: { "activity.total_reads": d } }`. -/
def incReads (d : Int) (b : Blog) : Blog :=
  { b with activity := { b.activity with total_reads := b.activity.total_reads + d } }

/-- The update `{ $inc: { "account_info.total_reads": d } }`. -/
def incUserReads (d : Int) (u : User) : User :=
  { u with account_info := { u.account_info with total_reads := u.account_info.total_reads + d } }

/-- The get-blog handler. `findError` is the rejection of `Blog.findOneAndUpdate`, if it
fails. The query resolves with the projected document as it was before the update, or with
null; reading `blog.author.personal_info` of null throws inside the callback and the
`.catch` of the chain answers 500. The response is written before the inner user update
settles, so that update does not decide the response. -/
def getBlog (findError : Option String) (s : Store) (b : GetBlogBody) : Store × Outcome :=
  let incrementVal : Int := if b.mode ≠ some (js "edit") then 1 else 0
  match findError with
  | some e => (s, .responded ⟨500, .error e⟩)
  | none =>
    let s1 : Store :=
      { s with blogs := updateFirst (fun x => x.blog_id = b.blog_id) (incReads incrementVal) s.blogs }
    match s.blogs.find? fun x => x.blog_id = b.blog_id with
    | none =>
      (s1, .responded ⟨500, .error "Cannot read properties of null (reading 'author')"⟩)
    | some doc =>
      let blog := select getBlogFields s.users doc
      match blog.author with
      | none =>
        (s1, .responded
          ⟨500, .error "Cannot read properties of null (reading 'personal_info')"⟩)
      | some author =>
        let users := updateFirst (fun u => u.personal_info.username = author.username)
          (incUserReads incrementVal) s1.users
        let s2 : Store := { s1 with users := users }
        if blog.draft = some true && !b.draft then
          (s2, .responded ⟨500, .error "Draft blogs are not accessible"⟩)
        else (s2, .responded ⟨200, .blog blog⟩)

/-! ## `POST /like-blog` (server.js lines 511-542) -/

/-- The rejections of the database calls of the like-blog handler; `none` means the call
resolves. -/
structure LikeFaults where
  /-- The rejection of `Blog.findOneAndUpdate`. -/
  update : Option String
  /-- The rejection of `like.save()`. -/
  save : Option String
  /-- The rejection of `Notification.findOneAndDelete`. -/
  delete : Option String
  deriving DecidableEq, Repr

/-- All database calls resolve. -/
def noFaults : LikeFaults := ⟨none, none, none⟩

/-- The update `{ $inc: { "activity.total_likes": d } }`. -/
def incLikes (d : Int) (b : Blog) : Blog :=
  { b with activity := { b.activity with total_likes := b.activity.total_likes + d } }

/-- The filter `{ user: user_id, blog: _id, type: "like" }`. -/
def isLikeOf (user_id _id : Nat) (n : Notification) : Bool :=
  n.user = user_id && n.blog = _id && n.type = "like"

/-- The like-blog handler, for a request that passed `verifyJWT` with `req.user = user_id`.
`oid` is the `_id` that `new Notification` gives the document; `isLikedByUser` is the
truthiness of the field. The outer promise chain has no `.catch`: a rejection of
`Blog.findOneAndUpdate` or of `like.save()`, and the `TypeError` of reading `blog.author`
when the query resolved with null, are not handled. -/
def likeBlog (faults : LikeFaults) (oid : Nat) (s : Store) (user_id _id : Nat)
    (isLikedByUser : Bool) : Store × Outcome :=
  let incrementVal : Int := if !isLikedByUser then 1 else -1
  match faults.update with
  | some e => (s, .unhandled e)
  | none =>
    let s1 : Store :=
      { s with blogs := updateFirst (fun x => x._id = _id) (incLikes incrementVal) s.blogs }
    if !isLikedByUser then
      match s.blogs.find? fun x => x._id = _id with
      | none => (s1, .unhandled "Cannot read properties of null (reading 'author')")
      | some blog =>
        match faults.save with
        | some e => (s1, .unhandled e)
        | none =>
          let like : Notification :=
            { _id := oid, type := "like", blog := _id, notification_for := blog.author,
              user := user_id }
          ({ s1 with notifications := s1.notifications ++ [like] },
            .responded ⟨200, .liked_by_user true⟩)
    else
      match faults.delete with
      | some e => (s1, .responded ⟨500, .error e⟩)
      | none =>
        ({ s1 with notifications := s1.notifications.eraseP (isLikeOf user_id _id) },
          .responded ⟨200, .liked_by_user false⟩)

/-- The value of `activity.total_likes` of the blog with the given `_id`. -/
def totalLikes (s : Store) (_id : Nat) : Option Int :=
  (s.blogs.find? fun x => x._id = _id).map fun b => b.activity.total_likes

/-- The number of stored notifications of type "like" by `user_id` on the blog `_id`. -/
def likeCount (s : Store) (user_id _id : Nat) : Nat :=
  (s.notifications.filter (isLikeOf user_id _id)).length

/-- A like: the handler called with `isLikedByUser = false`, every database call resolving. -/
def likeStep (oid : Nat) (s : Store) (user_id _id : Nat) : Store × Outcome :=
  likeBlog noFaults oid s user_id _id false

/-- A like followed by an unlike for the same user and blog: the handler called with
`isLikedByUser = true` on the store the like left, every database call resolving. -/
def unlikeStep (oid : Nat) (s : Store) (user_id _id : Nat) : Store × Outcome :=
  likeBlog noFaults oid (likeStep oid s user_id _id).1 user_id _id true

/-- The invariant of the specification: at most one notification of type "like" for every
pair of a user and a blog. -/
def LikeInvariant (s : Store) : Prop :=
  ∀ user_id _id, likeCount s user_id _id ≤ 1

/-! ## Fixtures

Concrete documents and stores at which the handlers are evaluated below. -/

/-- A local account. -/
def ann : User :=
  { _id := 9
    personal_info :=
      { fullname := js "Ann Lee", email := js "ann@x.com", password := js "$2b$10$hash",
        username := js "ann", profile_img := js "" }
    google_auth := false
    account_info := { total_posts := 1, total_reads := 0 }
    blogs := [1] }

/-- A federated-only account: the flag is set and the password hash is empty. -/
def gina : User :=
  { _id := 12
    personal_info :=
      { fullname := js "Gina Ray", email := js "gina@x.com", password := js "",
        username := js "gina", profile_img := js "" }
    google_auth := true
    account_info := { total_posts := 0, total_reads := 0 }
    blogs := [] }

/-- A draft blog of `ann`. -/
def draftBlog : Blog :=
  { _id := 1, blog_id := js "notes-abc", title := js "Notes", des := js "", banner := js "",
    content := { blocks := [] }, tags := [], draft := true, author := 9,
    activity := { total_likes := 0, total_reads := 0 }, publishedAt := 0 }

/-- A store with no notification. -/
def freshStore : Store := { users := [ann, gina], blogs := [draftBlog], notifications := [] }

/-- A store in which user 7 already has a notification of type "like" on blog 1. -/
def likedStore : Store :=
  { users := [ann, gina], blogs := [draftBlog]
    notifications := [{ _id := 100, type := "like", blog := 1, notification_for := 9, user := 7 }] }

/-- Two users, named by a local part and by that local part with a suffix. -/
def janes : List User :=
  [ { ann with _id := 20, personal_info := { ann.personal_info with username := js "jane" } },
    { ann with _id := 21, personal_info := { ann.personal_info with username := js "janeabcde" } } ]

/-- Collaborators of the signup handler that all succeed. -/
def signupEnv : SignupEnv :=
  { hash := fun p => .ok p
    nanoid := js "abcdeFGHIJKLMNOPQRSTU"
    existsError := none
    save := fun u => .ok
      { _id := 30
        personal_info := { fullname := u.fullname, email := u.email, password := u.password,
                           username := u.username, profile_img := js "" }
        google_auth := false
        account_info := { total_posts := 0, total_reads := 0 }
        blogs := [] }
    sign := fun _ => "token" }

/-- Collaborators of the create-blog handler that all succeed. -/
def createBlogEnv : CreateBlogEnv :=
  { nanoid := js "abcdeFGHIJKLMNOPQRSTU"
    toLowerCase := fun t => t.map fun c => if isUpper c then c + 32 else c
    updateBlogError := none,
    saveBlog := .ok 2, updateUserError := none }

/-! ## The matcher on classes, `.*` and `.{lo,hi}` -/

/-- A class matches one code unit of the class. -/
theorem mem_ends_cls (p : Nat → Bool) (s : JSString) (i j : Nat) :
    j ∈ (Regex.cls p).ends s i ↔ j = i + 1 ∧ ∃ c, s[i]? = some c ∧ p c = true := by
  unfold Regex.ends
  cases h : s[i]? with
  | none => simp
  | some c =>
    by_cases hp : p c = true
    · simp [hp]
    · simp [hp]

/-- The star of a class ends anywhere within the run of units of the class, fuel permitting. -/
theorem mem_starFrom_cls (p : Nat → Bool) (s : JSString) (fuel : Nat) :
    ∀ i j, j ∈ starFrom ((Regex.cls p).ends s) fuel i ↔
      i ≤ j ∧ j ≤ i + fuel ∧ AllIn p s i j := by
  induction fuel with
  | zero =>
    intro i j
    simp only [starFrom, List.mem_singleton, Nat.add_zero]
    constructor
    · rintro rfl
      exact ⟨le_refl _, le_refl _, fun k h1 h2 => absurd h2 (by omega)⟩
    · rintro ⟨h1, h2, _⟩
      omega
  | succ n ih =>
    intro i j
    simp only [starFrom, List.mem_cons, List.mem_flatMap, List.mem_filter, decide_eq_true_eq,
      mem_ends_cls, ih]
    constructor
    · rintro (rfl | ⟨m, ⟨⟨rfl, c, hc, hp⟩, _⟩, h1, h2, h3⟩)
      · exact ⟨le_refl _, by omega, fun k h1 h2 => absurd h2 (by omega)⟩
      · refine ⟨by omega, by omega, fun k hk1 hk2 => ?_⟩
        by_cases hki : k = i
        · subst hki; exact ⟨c, hc, hp⟩
        · exact h3 k (by omega) hk2
    · rintro ⟨h1, h2, h3⟩
      by_cases hij : j = i
      · exact Or.inl hij
      · right
        obtain ⟨c, hc, hp⟩ := h3 i (le_refl _) (by omega)
        exact ⟨i + 1, ⟨⟨rfl, c, hc, hp⟩, by omega⟩, by omega, by omega,
          fun k hk1 hk2 => h3 k (by omega) hk2⟩

/-- A bounded repetition of a class ends after `lo` to `hi` units of the class. -/
theorem mem_repFrom_cls (p : Nat → Bool) (s : JSString) :
    ∀ lo hi i j, j ∈ repFrom ((Regex.cls p).ends s) lo hi i ↔
      lo ≤ hi ∧ i + lo ≤ j ∧ j ≤ i + hi ∧ AllIn p s i j := by
  intro lo hi
  induction hi generalizing lo with
  | zero =>
    intro i j
    cases lo with
    | zero =>
      simp only [repFrom, List.mem_singleton, Nat.add_zero]
      constructor
      · rintro rfl
        exact ⟨le_refl _, le_refl _, le_refl _, fun k h1 h2 => absurd h2 (by omega)⟩
      · rintro ⟨_, h1, h2, _⟩
        omega
    | succ lo => simp [repFrom]
  | succ n ih =>
    intro i j
    cases lo with
    | zero =>
      simp only [repFrom, List.mem_cons, List.mem_flatMap, mem_ends_cls, ih]
      constructor
      · rintro (rfl | ⟨m, ⟨rfl, c, hc, hp⟩, _, h1, h2, h3⟩)
        · exact ⟨by omega, by omega, by omega, fun k h1 h2 => absurd h2 (by omega)⟩
        · refine ⟨by omega, by omega, by omega, fun k hk1 hk2 => ?_⟩
          by_cases hki : k = i
          · subst hki; exact ⟨c, hc, hp⟩
          · exact h3 k (by omega) hk2
      · rintro ⟨_, h1, h2, h3⟩
        by_cases hij : j = i
        · exact Or.inl hij
        · right
          obtain ⟨c, hc, hp⟩ := h3 i (le_refl _) (by omega)
          exact ⟨i + 1, ⟨rfl, c, hc, hp⟩, by omega, by omega, by omega,
            fun k hk1 hk2 => h3 k (by omega) hk2⟩
    | succ lo =>
      simp only [repFrom, List.mem_flatMap, mem_ends_cls, ih]
      constructor
      · rintro ⟨m, ⟨rfl, c, hc, hp⟩, h0, h1, h2, h3⟩
        refine ⟨by omega, by omega, by omega, fun k hk1 hk2 => ?_⟩
        by_cases hki : k = i
        · subst hki; exact ⟨c, hc, hp⟩
        · exact h3 k (by omega) hk2
      · rintro ⟨h0, h1, h2, h3⟩
        obtain ⟨c, hc, hp⟩ := h3 i (le_refl _) (by omega)
        exact ⟨i + 1, ⟨rfl, c, hc, hp⟩, by omega, by omega, by omega,
          fun k hk1 hk2 => h3 k (by omega) hk2⟩

/-- A concatenation ends where the second part ends, started where the first ended. -/
theorem mem_ends_seq (a b : Regex) (s : JSString) (i j : Nat) :
    j ∈ (Regex.seq a b).ends s i ↔ ∃ m, m ∈ a.ends s i ∧ j ∈ b.ends s m := by
  simp [Regex.ends, List.mem_flatMap]

/-- A lookahead consumes nothing and needs a match of its body. -/
theorem mem_ends_look (a : Regex) (s : JSString) (i j : Nat) :
    j ∈ (Regex.look a).ends s i ↔ j = i ∧ ∃ m, m ∈ a.ends s i := by
  have hdef : (Regex.look a).ends s i = if (a.ends s i).isEmpty then [] else [i] := rfl
  rw [hdef]
  cases h : a.ends s i with
  | nil => simp
  | cons x xs => simp

/-- The anchor `^` matches at position 0 only. -/
theorem mem_ends_bol (s : JSString) (i j : Nat) :
    j ∈ Regex.bol.ends s i ↔ j = i ∧ i = 0 := by
  unfold Regex.ends
  by_cases h : i = 0 <;> simp [h]

/-- The anchor `$` matches at the end of the input only. -/
theorem mem_ends_eol (s : JSString) (i j : Nat) :
    j ∈ Regex.eol.ends s i ↔ j = i ∧ i = s.length := by
  unfold Regex.ends
  by_cases h : i = s.length <;> simp [h]

/-- The star of a class, with the fuel the matcher gives it. -/
theorem mem_ends_star_cls (p : Nat → Bool) (s : JSString) (i j : Nat) :
    j ∈ (Regex.star (.cls p)).ends s i ↔ i ≤ j ∧ j ≤ i + s.length ∧ AllIn p s i j := by
  rw [Regex.ends, mem_starFrom_cls]

/-- The bounded repetition of a class, as the matcher runs it. -/
theorem mem_ends_rep_cls (p : Nat → Bool) (s : JSString) (lo hi i j : Nat) :
    j ∈ (Regex.rep (.cls p) lo hi).ends s i ↔
      lo ≤ hi ∧ i + lo ≤ j ∧ j ≤ i + hi ∧ AllIn p s i j := by
  rw [Regex.ends, mem_repFrom_cls]

/-- The method `test` holds when a match starts at some position of the input. -/
theorem test_iff (r : Regex) (s : JSString) :
    r.test s = true ↔ ∃ i j, i ≤ s.length ∧ j ∈ r.ends s i := by
  simp only [Regex.test, List.any_eq_true, List.mem_range, Bool.not_eq_true',
    List.isEmpty_eq_false_iff_exists_mem, Nat.lt_succ_iff]
  constructor
  · rintro ⟨i, hi, j, hj⟩
    exact ⟨i, j, hi, hj⟩
  · rintro ⟨i, j, hi, hj⟩
    exact ⟨i, hi, j, hj⟩

/-- Over the whole input, `AllIn` says that every code unit satisfies the class. -/
theorem allIn_zero_length (p : Nat → Bool) (s : JSString) :
    AllIn p s 0 s.length ↔ ∀ c ∈ s, p c = true := by
  constructor
  · intro h c hc
    obtain ⟨k, hk, rfl⟩ := List.getElem_of_mem hc
    obtain ⟨d, hd, hp⟩ := h k (Nat.zero_le _) hk
    rw [List.getElem?_eq_getElem hk] at hd
    cases hd
    exact hp
  · intro h k _ hk
    exact ⟨s[k], List.getElem?_eq_getElem hk, h _ (List.getElem_mem hk)⟩

/-- The predicate `AllIn` holds on a shorter range. -/
theorem allIn_mono {p : Nat → Bool} {s : JSString} {i j j2 : Nat} (h : AllIn p s i j2)
    (hj : j ≤ j2) : AllIn p s i j :=
  fun k h1 h2 => h k h1 (by omega)

/-- A range on which `AllIn` holds lies within the input. -/
theorem allIn_le_length {p : Nat → Bool} {s : JSString} {j : Nat} (h : AllIn p s 0 j) :
    j ≤ s.length := by
  by_contra hlt
  obtain ⟨c, hc, _⟩ := h s.length (Nat.zero_le _) (by omega)
  simp at hc

/-- What `(?=.*C)` means at position 0 of a string without line terminators. -/
theorem look_dotstar_cls (q : Nat → Bool) (s : JSString)
    (hs : ∀ c ∈ s, isLineTerminator c = false) (j : Nat) :
    j ∈ (Regex.look (.seq (.star .dot) (.cls q))).ends s 0 ↔ j = 0 ∧ ∃ c ∈ s, q c = true := by
  rw [mem_ends_look]
  simp only [mem_ends_seq, Regex.dot, mem_ends_star_cls, mem_ends_cls]
  constructor
  · rintro ⟨rfl, m, k, _, rfl, c, hc, hq⟩
    exact ⟨rfl, c, List.getElem?_mem hc, hq⟩
  · rintro ⟨rfl, c, hc, hq⟩
    obtain ⟨k, hk, rfl⟩ := List.getElem_of_mem hc
    refine ⟨rfl, k + 1, k, ⟨Nat.zero_le _, by omega, ?_⟩, rfl, s[k],
      List.getElem?_eq_getElem hk, hq⟩
    refine allIn_mono ((allIn_zero_length _ s).2 ?_) (Nat.le_of_lt hk)
    intro c hc
    simp [hs c hc]

/-- The password pattern accepts exactly the strings of 6 to 20 code units, none of them a
line terminator, that hold a digit, a lowercase and an uppercase ASCII letter. -/
theorem passwordRegex_test_iff (s : JSString) :
    passwordRegex.test s = true ↔
      6 ≤ s.length ∧ s.length ≤ 20 ∧ (∀ c ∈ s, isLineTerminator c = false) ∧
      (∃ c ∈ s, isDigit c = true) ∧ (∃ c ∈ s, isLower c = true) ∧
      (∃ c ∈ s, isUpper c = true) := by
  have hbody : ∀ i j, j ∈ (Regex.seq (.rep .dot 6 20) .eol).ends s i ↔
      j = s.length ∧ i + 6 ≤ s.length ∧ s.length ≤ i + 20 ∧
        AllIn (fun c => !isLineTerminator c) s i s.length := by
    intro i j
    simp only [mem_ends_seq, Regex.dot, mem_ends_rep_cls, mem_ends_eol]
    constructor
    · rintro ⟨m, ⟨_, h1, h2, h3⟩, rfl, rfl⟩
      exact ⟨rfl, h1, h2, h3⟩
    · rintro ⟨rfl, h1, h2, h3⟩
      exact ⟨s.length, ⟨by omega, h1, h2, h3⟩, rfl, rfl⟩
  rw [test_iff]
  constructor
  · rintro ⟨i, j, _, hj⟩
    unfold passwordRegex at hj
    rw [mem_ends_seq] at hj
    obtain ⟨m0, h0, hj⟩ := hj
    rw [mem_ends_bol] at h0
    obtain ⟨rfl, rfl⟩ := h0
    rw [mem_ends_seq] at hj
    obtain ⟨m1, hd, hj⟩ := hj
    rw [mem_ends_seq] at hj
    obtain ⟨m2, hl, hj⟩ := hj
    rw [mem_ends_seq] at hj
    obtain ⟨m3, hu, hj⟩ := hj
    rw [mem_ends_look] at hd hl hu
    obtain ⟨rfl, md, hd⟩ := hd
    obtain ⟨rfl, ml, hl⟩ := hl
    obtain ⟨rfl, mu, hu⟩ := hu
    rw [hbody] at hj
    obtain ⟨_, h6, h20, hall⟩ := hj
    have hs : ∀ c ∈ s, isLineTerminator c = false := by
      intro c hc
      have := (allIn_zero_length _ s).1 hall c hc
      simpa using this
    have hd2 := (look_dotstar_cls isDigit s hs 0).1 ((mem_ends_look _ _ _ _).2 ⟨rfl, md, hd⟩)
    have hl2 := (look_dotstar_cls isLower s hs 0).1 ((mem_ends_look _ _ _ _).2 ⟨rfl, ml, hl⟩)
    have hu2 := (look_dotstar_cls isUpper s hs 0).1 ((mem_ends_look _ _ _ _).2 ⟨rfl, mu, hu⟩)
    exact ⟨by omega, by omega, hs, hd2.2, hl2.2, hu2.2⟩
  · rintro ⟨h6, h20, hs, hd, hl, hu⟩
    refine ⟨0, s.length, Nat.zero_le _, ?_⟩
    unfold passwordRegex
    rw [mem_ends_seq]
    refine ⟨0, (mem_ends_bol _ _ _).2 ⟨rfl, rfl⟩, ?_⟩
    rw [mem_ends_seq]
    refine ⟨0, (look_dotstar_cls isDigit s hs 0).2 ⟨rfl, hd⟩, ?_⟩
    rw [mem_ends_seq]
    refine ⟨0, (look_dotstar_cls isLower s hs 0).2 ⟨rfl, hl⟩, ?_⟩
    rw [mem_ends_seq]
    refine ⟨0, (look_dotstar_cls isUpper s hs 0).2 ⟨rfl, hu⟩, ?_⟩
    rw [hbody]
    refine ⟨rfl, by omega, by omega, (allIn_zero_length _ s).2 ?_⟩
    intro c hc
    simp [hs c hc]

/-! ## Signup: the password check -/

/-- C2. For a signup request whose fullname and email pass their checks, the handler answers
403 with the password message whenever the password has no digit, or no uppercase letter, or
fewer than 6 code units; and a password of exactly 6 code units, none a line terminator, with
a digit, a lowercase and an uppercase letter matches the pattern and passes the checks. -/
theorem signup_password_check (env : SignupEnv) (users : List User) (b : SignupBody)
    (hname : 3 ≤ b.fullname.length) (hemail : b.email ≠ [])
    (hshape : emailRegex.test b.email = true) :
    (((∀ c ∈ b.password, isDigit c = false) ∨ (∀ c ∈ b.password, isUpper c = false) ∨
        b.password.length < 6) →
      signup env users b = .responded ⟨403, .error passwordMessage⟩) ∧
    ((b.password.length = 6 ∧ (∀ c ∈ b.password, isLineTerminator c = false) ∧
        (∃ c ∈ b.password, isDigit c = true) ∧ (∃ c ∈ b.password, isLower c = true) ∧
        (∃ c ∈ b.password, isUpper c = true)) →
      passwordRegex.test b.password = true ∧ signupValidation b = none) := by
  have hlen : ¬ b.fullname.length < 3 := by omega
  have hne : ¬ b.email.length = 0 := by
    intro h
    exact hemail (List.length_eq_zero.mp h)
  constructor
  · intro hbad
    have hno : passwordRegex.test b.password = false := by
      cases htest : passwordRegex.test b.password with
      | false => rfl
      | true =>
        obtain ⟨h6, _, _, ⟨d, hd, hdd⟩, _, ⟨u, hu, huu⟩⟩ := (passwordRegex_test_iff _).1 htest
        rcases hbad with h | h | h
        · rw [h d hd] at hdd
          cases hdd
        · rw [h u hu] at huu
          cases huu
        · omega
    simp [signup, signupValidation, hlen, hne, hshape, hno]
  · rintro ⟨h6, hlt, hd, hl, hu⟩
    have hyes : passwordRegex.test b.password = true :=
      (passwordRegex_test_iff _).2 ⟨by omega, by omega, hlt, hd, hl, hu⟩
    exact ⟨hyes, by simp [signupValidation, hlen, hne, hshape, hyes]⟩

/-- C2 at the request of Jane Doe with the six-unit password `Abcde1`: it passes. -/
theorem signup_password_check_witness :
    passwordRegex.test (js "Abcde1") = true ∧
    signupValidation ⟨js "Jane Doe", js "jane@x.com", js "Abcde1"⟩ = none :=
  (signup_password_check signupEnv [] ⟨js "Jane Doe", js "jane@x.com", js "Abcde1"⟩
    (by decide) (by decide) (by decide)).2 (by decide)

/-- C10. The password `Abcde1` has 6 code units, fewer than the 8 the rejection message
states, and the password check of signup accepts it: the pattern matches, the request passes
the checks and the handler answers 200. -/
theorem signup_accepts_six_unit_password :
    (js "Abcde1").length = 6 ∧
    passwordRegex.test (js "Abcde1") = true ∧
    signupValidation ⟨js "Jane Doe", js "jane@x.com", js "Abcde1"⟩ = none ∧
    signup signupEnv [] ⟨js "Jane Doe", js "jane@x.com", js "Abcde1"⟩ =
      .responded ⟨200, .auth ⟨"token", js "", js "jane", js "Jane Doe"⟩⟩ := by
  decide

/-! ## `verifyJWT` -/

/-- The three paths of the middleware, by the token it reads from the header. -/
theorem verifyJWT_cases (verify : JSString → Except String Payload)
    (authorization : Option JSString) :
    (bearerToken authorization = none →
      verifyJWT verify authorization = ⟨some ⟨401, .error "No access token"⟩, none, 0⟩) ∧
    (∀ token e, bearerToken authorization = some token → verify token = .error e →
      verifyJWT verify authorization =
        ⟨some ⟨403, .error "Access token is invalid"⟩, none, 0⟩) ∧
    (∀ token p, bearerToken authorization = some token → verify token = .ok p →
      verifyJWT verify authorization = ⟨none, p.id, 1⟩) := by
  refine ⟨fun h => ?_, fun token e h hv => ?_, fun token p h hv => ?_⟩
  · simp [verifyJWT, h]
  · simp [verifyJWT, h, hv]
  · simp [verifyJWT, h, hv]

/-- The header yields no token exactly when it is absent, or is not empty and has no second
segment between spaces. -/
theorem bearerToken_eq_none (authorization : Option JSString) :
    bearerToken authorization = none ↔
      authorization = none ∨
        ∃ h, authorization = some h ∧ h ≠ [] ∧ (split 32 h)[1]? = none := by
  cases authorization with
  | none => simp [bearerToken]
  | some h =>
    by_cases hh : h = []
    · simp [bearerToken, hh]
    · simp [bearerToken, hh]

/-- C1. A request whose Authorization header is the empty string has no second segment
between spaces, yet the middleware does not answer 401: the empty string is falsy, so it is
itself taken as the token and handed to the verification, whose result decides between 403
and the next handler. -/
theorem verifyJWT_empty_header (verify : JSString → Except String Payload) :
    (split 32 [])[1]? = none ∧
    (verifyJWT verify (some [])).response ≠ some ⟨401, .error "No access token"⟩ ∧
    verifyJWT verify (some []) =
      (match verify [] with
        | .error _ => ⟨some ⟨403, .error "Access token is invalid"⟩, none, 0⟩
        | .ok p => ⟨none, p.id, 1⟩) := by
  refine ⟨by decide, ?_, ?_⟩
  · cases h : verify [] with
    | error e => simp [verifyJWT, bearerToken, h]
    | ok p => simp [verifyJWT, bearerToken, h]
  · cases h : verify [] with
    | error e => simp [verifyJWT, bearerToken, h]
    | ok p => simp [verifyJWT, bearerToken, h]

/-! ## Signin -/

/-- C5. When the email of a signin request finds a stored account whose federated flag is
set, then for every password the handler answers 403 with the message that points to
Google, which is neither the wrong-password response nor a 200, and `bcrypt.compare` is not
called. -/
theorem signin_federated (sign : Nat → String)
    (compare : JSString → JSString → Except String Bool) (users : List User) (b : SigninBody)
    (user : User)
    (hfound : (users.find? fun u => u.personal_info.email = b.email) = some user)
    (hflag : user.google_auth = true) :
    (signin sign compare none users b).outcome =
        .responded ⟨403, .error "Account already registered. Kindly login with Google "⟩ ∧
    (signin sign compare none users b).outcome ≠
        .responded ⟨403, .error "Password is incorrect"⟩ ∧
    (∀ body, (signin sign compare none users b).outcome ≠ .responded ⟨200, body⟩) ∧
    (signin sign compare none users b).compareCalls = [] := by
  have h : signin sign compare none users b =
      ⟨.responded ⟨403, .error "Account already registered. Kindly login with Google "⟩, []⟩ := by
    simp [signin, hfound, hflag]
  rw [h]
  refine ⟨rfl, by decide, fun body => ?_, rfl⟩
  intro hc
  cases hc

/-- C5 at the federated account `gina`, with a comparison that would accept any password. -/
theorem signin_federated_witness :
    (signin (fun _ => "token") (fun _ _ => .ok true) none [ann, gina]
        ⟨js "gina@x.com", js "Abcde1"⟩).outcome =
      .responded ⟨403, .error "Account already registered. Kindly login with Google "⟩ ∧
    (signin (fun _ => "token") (fun _ _ => .ok true) none [ann, gina]
        ⟨js "gina@x.com", js "Abcde1"⟩).compareCalls = [] :=
  have h := signin_federated (fun _ => "token") (fun _ _ => .ok true) [ann, gina]
    ⟨js "gina@x.com", js "Abcde1"⟩ gina (by decide) (by decide)
  ⟨h.1, h.2.2.2⟩

/-! ## Create-blog: validation -/

/-- C6, as stated, fails: the body `{ title: "Notes", draft: false, content: { blocks: [] } }`
has a title, a falsy `draft` and no blocks, but no `des`; the first check reads
`des.length`, the handler throws and no check answers 403. -/
theorem createBlog_absent_des_throws :
    createBlogValidation
      ⟨some (js "Notes"), none, none, none, some ⟨some []⟩, false, none⟩ = .throws ∧
    createBlog createBlogEnv 9
      ⟨some (js "Notes"), none, none, none, some ⟨some []⟩, false, none⟩ = ⟨.threw, []⟩ ∧
    ∀ msg, createBlog createBlogEnv 9
      ⟨some (js "Notes"), none, none, none, some ⟨some []⟩, false, none⟩ ≠
        ⟨.responded ⟨403, .error msg⟩, []⟩ := by
  refine ⟨by decide, by decide, fun msg h => ?_⟩
  have h2 : (createBlog createBlogEnv 9
      ⟨some (js "Notes"), none, none, none, some ⟨some []⟩, false, none⟩).outcome = .threw := by
    decide
  rw [h] at h2
  cases h2

/-- C6, amended. For a create-blog request with a non-empty title: when `draft` is truthy
the request passes the checks whatever description, banner, blocks and tags it carries or
leaves out, and the handler goes on to write the blog when `tags` is there; when `draft`
is falsy and `content.blocks` is empty the handler issues no database call, it answers 403
when `des` and `banner` are present, and it throws when `des` is absent (on `des.length`)
or when `des` passes its check and `banner` is absent (on `banner.length`). -/
theorem createBlog_draft_validation (env : CreateBlogEnv) (authorId : Nat) (b : CreateBlogBody)
    (title : JSString) (htitle : b.title = some title) (hne : title ≠ []) :
    (b.draft = true →
      createBlogValidation b = .pass ∧
      (b.tags ≠ none → (createBlog env authorId b).calls ≠ [])) ∧
    (b.draft = false → (b.content.bind fun c => c.blocks) = some [] →
      (createBlog env authorId b).calls = [] ∧
      (b.des ≠ none → b.banner ≠ none →
        ∃ msg, createBlog env authorId b = ⟨.responded ⟨403, .error msg⟩, []⟩) ∧
      (b.des = none → createBlog env authorId b = ⟨.threw, []⟩) ∧
      (∀ des, b.des = some des → 0 < des.length → des.length ≤ 200 → b.banner = none →
        createBlog env authorId b = ⟨.threw, []⟩)) := by
  have ht : ¬ title.length = 0 := by
    intro h
    exact hne (List.length_eq_zero.mp h)
  constructor
  · intro hd
    have hv : createBlogValidation b = .pass := by
      simp [createBlogValidation, htitle, ht, hd]
    refine ⟨hv, fun htags => ?_⟩
    unfold createBlog
    rw [hv]
    cases htg : b.tags with
    | none => exact absurd htg htags
    | some bodyTags =>
      cases hid : b.id.filter fun i => decide (i ≠ []) with
      | some blog_id =>
        cases hu : env.updateBlogError <;> simp [hid, hu]
      | none =>
        cases hs : env.saveBlog with
        | error e => simp [hid, hs]
        | ok saved => cases hu : env.updateUserError <;> simp [hid, hs, hu]
  · intro hd hblocks
    cases hdes : b.des with
    | none =>
      have hv : createBlogValidation b = .throws := by
        simp [createBlogValidation, htitle, ht, hd, hdes]
      have hr : createBlog env authorId b = ⟨.threw, []⟩ := by
        simp [createBlog, hv]
      exact ⟨by rw [hr], fun h => absurd rfl h, fun _ => hr, fun _ _ _ _ _ => hr⟩
    | some des =>
      by_cases h1 : (des.length = 0 || decide (des.length > 200)) = true
      · have hv : createBlogValidation b =
            .reject ⟨403, .error "Kindly provide the blog description as well"⟩ := by
          simp only [createBlogValidation, htitle, ht, hd, hdes, h1]
          rfl
        have hr : createBlog env authorId b =
            ⟨.responded ⟨403, .error "Kindly provide the blog description as well"⟩, []⟩ := by
          simp [createBlog, hv]
        refine ⟨by rw [hr], fun _ _ => ⟨_, hr⟩, fun h => Option.noConfusion h,
          fun d hd2 hpos hle _ => ?_⟩
        cases hd2
        simp only [Bool.or_eq_true, decide_eq_true_eq] at h1
        omega
      · cases hban : b.banner with
        | none =>
          have hv : createBlogValidation b = .throws := by
            simp only [createBlogValidation, htitle, ht, hd, hdes, h1, hban]
            rfl
          have hr : createBlog env authorId b = ⟨.threw, []⟩ := by
            simp [createBlog, hv]
          exact ⟨by rw [hr], fun _ h => absurd rfl h, fun h => Option.noConfusion h,
            fun _ _ _ _ _ => hr⟩
        | some banner =>
          by_cases h2 : banner.length = 0
          · have hv : createBlogValidation b =
                .reject ⟨403, .error "Kindly upload the suitable banner as well"⟩ := by
              simp only [createBlogValidation, htitle, ht, hd, hdes, h1, hban, h2]
              rfl
            have hr : createBlog env authorId b =
                ⟨.responded ⟨403, .error "Kindly upload the suitable banner as well"⟩, []⟩ := by
              simp [createBlog, hv]
            exact ⟨by rw [hr], fun _ _ => ⟨_, hr⟩, fun h => Option.noConfusion h,
              fun _ _ _ _ h => Option.noConfusion h⟩
          · have hv : createBlogValidation b =
                .reject ⟨403, .error "Content can't be empty"⟩ := by
              simp only [createBlogValidation, htitle, ht, hd, hdes, h1, hban, h2, hblocks]
              rfl
            have hr : createBlog env authorId b =
                ⟨.responded ⟨403, .error "Content can't be empty"⟩, []⟩ := by
              simp [createBlog, hv]
            exact ⟨by rw [hr], fun _ _ => ⟨_, hr⟩, fun h => Option.noConfusion h,
              fun _ _ _ _ h => Option.noConfusion h⟩

/-- C6, amended, at a draft that carries a title only, and at a request with `draft` false,
a description, a banner, tags and no blocks. -/
theorem createBlog_draft_validation_witness :
    createBlogValidation ⟨some (js "Notes"), none, none, none, none, true, none⟩ = .pass ∧
    ∃ msg, createBlog createBlogEnv 9
      ⟨some (js "Notes"), some (js "d"), some (js "b"), some [js "t"], some ⟨some []⟩, false,
        none⟩ = ⟨.responded ⟨403, .error msg⟩, []⟩ :=
  ⟨((createBlog_draft_validation createBlogEnv 9
      ⟨some (js "Notes"), none, none, none, none, true, none⟩ (js "Notes") rfl
      (by decide)).1 rfl).1,
    ((createBlog_draft_validation createBlogEnv 9
      ⟨some (js "Notes"), some (js "d"), some (js "b"), some [js "t"], some ⟨some []⟩, false,
        none⟩ (js "Notes") rfl (by decide)).2 rfl rfl).2.1 (by decide) (by decide)⟩

/-! ## Get-blog: the draft guard -/

/-- The projection of the get-blog query does not name `draft`: the document the handler
reads has no `draft`. -/
theorem select_getBlogFields_draft (users : List User) (b : Blog) :
    (select getBlogFields users b).draft = none := by
  simp [select, pick, getBlogFields]

/-- When the query resolves, the get-blog handler never sends the draft response, whatever
the store and the request are. -/
theorem getBlog_never_draft_error (s : Store) (b : GetBlogBody) :
    (getBlog none s b).2 ≠ .responded ⟨500, .error "Draft blogs are not accessible"⟩ := by
  unfold getBlog
  simp only
  cases hf : s.blogs.find? fun x => x.blog_id = b.blog_id with
  | none => simp
  | some doc =>
    simp only
    cases ha : (select getBlogFields s.users doc).author with
    | none => simp
    | some author => simp [select_getBlogFields_draft]

/-- C7. The stored blog `notes-abc` is a draft, and a get-blog request for it without
`draft` is answered 200 with the blog, not 500: the projected document has no `draft`, so
the guard `blog.draft && !draft` never holds. -/
theorem getBlog_returns_draft :
    draftBlog.draft = true ∧
    (getBlog none freshStore ⟨js "notes-abc", false, none⟩).2 =
      .responded ⟨200, .blog (select getBlogFields freshStore.users draftBlog)⟩ ∧
    (getBlog none freshStore ⟨js "notes-abc", false, none⟩).2 ≠
      .responded ⟨500, .error "Draft blogs are not accessible"⟩ := by
  decide

/-! ## `generateUsername` -/

/-- C8, as stated, fails: the local part `jane` is taken, and with the random id
`abcdeFGHIJKLMNOPQRSTU` the function returns `janeabcde`, the username of another stored
user. -/
theorem generateUsername_collides :
    usernameExists janes (localPart (js "jane@x.com")) = true ∧
    generateUsername none janes (js "abcdeFGHIJKLMNOPQRSTU") (js "jane@x.com") =
      .ok (js "janeabcde") ∧
    usernameExists janes (js "janeabcde") = true :=
  ⟨by decide, rfl, by decide⟩

/-- C8, amended. With the query succeeding and a random id of 21 code units: the function
returns the local part of the email when no stored user has it as username; when it is
taken, the function returns the local part followed by the first five units of the random
id, which is five units longer than the taken username and so differs from it. -/
theorem generateUsername_result (users : List User) (nanoid email : JSString)
    (hn : nanoid.length = 21) :
    (usernameExists users (localPart email) = false →
      generateUsername none users nanoid email = .ok (localPart email)) ∧
    (usernameExists users (localPart email) = true →
      generateUsername none users nanoid email = .ok (localPart email ++ nanoid.take 5) ∧
      (localPart email ++ nanoid.take 5).length = (localPart email).length + 5 ∧
      localPart email ++ nanoid.take 5 ≠ localPart email) := by
  have hlen : (localPart email ++ nanoid.take 5).length = (localPart email).length + 5 := by
    simp [List.length_append, List.length_take, hn]
  refine ⟨fun h => by simp [generateUsername, h], fun h => ⟨by simp [generateUsername, h], hlen, ?_⟩⟩
  intro heq
  rw [heq] at hlen
  omega

/-- C8, amended, at the store `janes`: for `jane@x.com` the suffix is added, for
`june@x.com` the local part is returned. -/
theorem generateUsername_result_witness :
    generateUsername none janes (js "abcdeFGHIJKLMNOPQRSTU") (js "june@x.com") =
      .ok (js "june") ∧
    (generateUsername none janes (js "abcdeFGHIJKLMNOPQRSTU") (js "jane@x.com") =
        .ok (localPart (js "jane@x.com") ++ (js "abcdeFGHIJKLMNOPQRSTU").take 5) ∧
      (localPart (js "jane@x.com") ++ (js "abcdeFGHIJKLMNOPQRSTU").take 5).length =
        (localPart (js "jane@x.com")).length + 5 ∧
      localPart (js "jane@x.com") ++ (js "abcdeFGHIJKLMNOPQRSTU").take 5 ≠
        localPart (js "jane@x.com")) :=
  ⟨(generateUsername_result janes (js "abcdeFGHIJKLMNOPQRSTU") (js "june@x.com")
      (by decide)).1 (by decide) |>.trans rfl,
    (generateUsername_result janes (js "abcdeFGHIJKLMNOPQRSTU") (js "jane@x.com")
      (by decide)).2 (by decide)⟩

/-! ## Like-blog: failures of the collaborators -/

/-- For every store and request, three failures of a collaborator leave the like-blog
request without a response: a rejected counter update; with `isLikedByUser` falsy, a blog
that does not exist; and, the blog existing, a rejected insert of the notification. -/
theorem likeBlog_unhandled (faults : LikeFaults) (oid : Nat) (s : Store) (user_id _id : Nat) :
    (∀ e flag, faults.update = some e →
      (likeBlog faults oid s user_id _id flag).2 = .unhandled e) ∧
    (faults.update = none → (s.blogs.find? fun x => x._id = _id) = none →
      (likeBlog faults oid s user_id _id false).2 =
        .unhandled "Cannot read properties of null (reading 'author')") ∧
    (∀ e blog, faults.update = none → (s.blogs.find? fun x => x._id = _id) = some blog →
      faults.save = some e → (likeBlog faults oid s user_id _id false).2 = .unhandled e) := by
  refine ⟨fun e flag h => ?_, fun h hf => ?_, fun e blog h hf hs => ?_⟩
  · simp [likeBlog, h]
  · simp [likeBlog, h, hf]
  · simp [likeBlog, h, hf, hs]

/-- C9. Failures of the collaborators of the like-blog handler that end without a response:
no blog has the `_id` and `isLikedByUser` is falsy (the callback throws on `blog.author`);
the counter update is rejected; the insert of the notification is rejected. And when no blog
has the `_id` and `isLikedByUser` is truthy, the handler answers 200, not an error. Only a
rejected delete is answered with 500 and an error text. -/
theorem likeBlog_failures_unhandled :
    (likeBlog noFaults 101 freshStore 7 5 false).2 =
      .unhandled "Cannot read properties of null (reading 'author')" ∧
    (likeBlog ⟨some "connection lost", none, none⟩ 101 freshStore 7 1 false).2 =
      .unhandled "connection lost" ∧
    (likeBlog ⟨none, some "validation failed", none⟩ 101 freshStore 7 1 false).2 =
      .unhandled "validation failed" ∧
    (likeBlog noFaults 101 freshStore 7 5 true).2 = .responded ⟨200, .liked_by_user false⟩ ∧
    (likeBlog ⟨none, none, some "connection lost"⟩ 101 freshStore 7 1 true).2 =
      .responded ⟨500, .error "connection lost"⟩ := by
  decide

/-! ## Like-blog: lists of documents -/

/-- The first match after `updateFirst` is the updated first match, when the update keeps the
filter. -/
theorem find?_updateFirst {α : Type} (p : α → Bool) (f : α → α) (hpf : ∀ x, p (f x) = p x)
    (l : List α) : (updateFirst p f l).find? p = (l.find? p).map f := by
  induction l with
  | nil => rfl
  | cons x xs ih =>
    by_cases hx : p x = true
    · simp [updateFirst, hx, List.find?_cons, hpf]
    · simp [updateFirst, hx, List.find?_cons, ih]

/-- Two updates of the first match make one, when the first keeps the filter. -/
theorem updateFirst_updateFirst {α : Type} (p : α → Bool) (f g : α → α)
    (hpf : ∀ x, p (f x) = p x) (l : List α) :
    updateFirst p g (updateFirst p f l) = updateFirst p (fun x => g (f x)) l := by
  induction l with
  | nil => rfl
  | cons x xs ih =>
    by_cases hx : p x = true
    · simp [updateFirst, hx, hpf]
    · simp [updateFirst, hx, ih]

/-- An update that changes no document changes no list. -/
theorem updateFirst_same {α : Type} (p : α → Bool) (f : α → α) (hf : ∀ x, f x = x)
    (l : List α) : updateFirst p f l = l := by
  induction l with
  | nil => rfl
  | cons x xs ih =>
    by_cases hx : p x = true
    · simp [updateFirst, hx, hf]
    · simp [updateFirst, hx, ih]

/-- The decrement undoes the increment of `total_likes`. -/
theorem incLikes_neg_one_one (b : Blog) : incLikes (-1) (incLikes 1 b) = b := by
  cases b with
  | mk i bi t d bn c tg dr a act pa =>
    cases act with
    | mk tl tr => simp [incLikes]

/-- The increment keeps the `_id` of the blog. -/
theorem incLikes_id (d : Int) (b : Blog) : (incLikes d b)._id = b._id := rfl

/-- Deleting the first match from a list without a match, followed by a match, gives the
list back. -/
theorem eraseP_append_singleton {α : Type} (q : α → Bool) (l : List α) (n : α)
    (hl : ∀ x ∈ l, q x = false) (hn : q n = true) : (l ++ [n]).eraseP q = l := by
  induction l with
  | nil => simp [List.eraseP, hn]
  | cons x xs ih =>
    have hx : q x = false := hl x (List.mem_cons_self _ _)
    simp [List.eraseP_cons, hx]
    exact ih fun y hy => hl y (List.mem_cons_of_mem _ hy)

/-- Deleting the first match from a list followed by a match removes one document. -/
theorem length_eraseP_append_singleton {α : Type} (q : α → Bool) (l : List α) (n : α)
    (hn : q n = true) : ((l ++ [n]).eraseP q).length = l.length := by
  have hmem : ∃ x ∈ l ++ [n], q x = true := ⟨n, by simp, hn⟩
  obtain ⟨x, hx, hq⟩ := hmem
  rw [List.length_eraseP_of_mem hx hq]
  simp

/-- Deleting the first match lowers the number of matches by one (or leaves none). -/
theorem length_filter_eraseP {α : Type} (q : α → Bool) (l : List α) :
    ((l.eraseP q).filter q).length = (l.filter q).length - 1 := by
  induction l with
  | nil => rfl
  | cons x xs ih =>
    by_cases hx : q x = true
    · simp [List.eraseP_cons, hx]
    · simp [List.eraseP_cons, hx, ih]

/-- Deleting the first match takes out the document before which nothing matches and keeps
every other document in place. -/
theorem eraseP_first_match {α : Type} (q : α → Bool) (pre post : List α) (m : α)
    (hpre : ∀ x ∈ pre, q x = false) (hm : q m = true) :
    (pre ++ m :: post).eraseP q = pre ++ post := by
  induction pre with
  | nil => simp [List.eraseP_cons, hm]
  | cons x xs ih =>
    have hx : q x = false := hpre x (List.mem_cons_self _ _)
    simp [List.eraseP_cons, hx]
    exact ih fun y hy => hpre y (List.mem_cons_of_mem _ hy)

/-- No like is counted exactly when no stored notification matches the filter. -/
theorem likeCount_eq_zero_iff (s : Store) (u b : Nat) :
    likeCount s u b = 0 ↔ ∀ n ∈ s.notifications, isLikeOf u b n = false := by
  simp [likeCount, List.filter_eq_nil_iff]

/-! ## Like-blog: a like followed by an unlike -/

/-- The store and response after a like of a stored blog. -/
theorem likeStep_eq (oid : Nat) (s : Store) (u b : Nat) (blog : Blog)
    (hb : (s.blogs.find? fun x => x._id = b) = some blog) :
    likeStep oid s u b =
      ({ s with
          blogs := updateFirst (fun x => x._id = b) (incLikes 1) s.blogs
          notifications := s.notifications ++ [⟨oid, "like", b, blog.author, u⟩] },
        .responded ⟨200, .liked_by_user true⟩) := by
  simp [likeStep, likeBlog, noFaults, hb]

/-- The store and response after a like and an unlike of a stored blog. -/
theorem unlikeStep_eq (oid : Nat) (s : Store) (u b : Nat) (blog : Blog)
    (hb : (s.blogs.find? fun x => x._id = b) = some blog) :
    unlikeStep oid s u b =
      ({ s with
          notifications :=
            (s.notifications ++ [(⟨oid, "like", b, blog.author, u⟩ : Notification)]).eraseP
              (isLikeOf u b) },
        .responded ⟨200, .liked_by_user false⟩) := by
  have hupd : updateFirst (fun x => decide (x._id = b)) (incLikes (-1))
      (updateFirst (fun x => decide (x._id = b)) (incLikes 1) s.blogs) = s.blogs := by
    rw [updateFirst_updateFirst _ _ _ (fun x => by simp [incLikes_id])]
    exact updateFirst_same _ _ incLikes_neg_one_one _
  simp [unlikeStep, likeStep_eq oid s u b blog hb, likeBlog, noFaults, hupd]

/-- C3, as stated, fails: in `likedStore` user 7 already has a like notification (`_id` 100)
on blog 1. The like adds the notification with `_id` 101; the unlike then deletes the first
match, which is the older one, so the notification the like added is still stored and the
notifications differ from the initial ones. -/
theorem likeBlog_pair_removes_older :
    (likeStep 101 likedStore 7 1).1.notifications =
      likedStore.notifications ++ [⟨101, "like", 1, 9, 7⟩] ∧
    (⟨101, "like", 1, 9, 7⟩ : Notification) ∈ (unlikeStep 101 likedStore 7 1).1.notifications ∧
    (unlikeStep 101 likedStore 7 1).1.notifications ≠ likedStore.notifications := by
  decide

/-- C3, amended. With every database call resolving and no other request in between, for a
stored blog `b` and a user `u`: the like adds exactly one notification (type "like", blog
`b`, user `u`, for the author of `b`), raises `total_likes` of `b` by 1 and answers
`liked_by_user: true`; the unlike that follows deletes exactly one like notification of
`u` on `b`, brings `total_likes`, all blogs and all users back to their initial values and
answers `liked_by_user: false`. Which notification goes: when the store already held a like
notification of `u` on `b`, the first of them in store order is deleted and every other
notification, the added one included, stays in place; when the store held none, the
notification deleted is the one the like added and the store equals the initial one. -/
theorem likeBlog_pair (oid : Nat) (s : Store) (u b : Nat) (blog : Blog)
    (hb : (s.blogs.find? fun x => x._id = b) = some blog) :
    (likeStep oid s u b).2 = .responded ⟨200, .liked_by_user true⟩ ∧
    (likeStep oid s u b).1.notifications =
      s.notifications ++ [⟨oid, "like", b, blog.author, u⟩] ∧
    totalLikes s b = some blog.activity.total_likes ∧
    totalLikes (likeStep oid s u b).1 b = some (blog.activity.total_likes + 1) ∧
    (unlikeStep oid s u b).2 = .responded ⟨200, .liked_by_user false⟩ ∧
    totalLikes (unlikeStep oid s u b).1 b = some blog.activity.total_likes ∧
    (unlikeStep oid s u b).1.blogs = s.blogs ∧
    (unlikeStep oid s u b).1.users = s.users ∧
    (unlikeStep oid s u b).1.notifications.length = s.notifications.length ∧
    likeCount (unlikeStep oid s u b).1 u b = likeCount s u b ∧
    (∀ pre m post, s.notifications = pre ++ m :: post →
      (∀ x ∈ pre, isLikeOf u b x = false) → isLikeOf u b m = true →
      (unlikeStep oid s u b).1.notifications =
        pre ++ post ++ [⟨oid, "like", b, blog.author, u⟩]) ∧
    (likeCount s u b = 0 →
      (⟨oid, "like", b, blog.author, u⟩ : Notification) ∉
          (unlikeStep oid s u b).1.notifications ∧
      (unlikeStep oid s u b).1 = s) := by
  have hq : isLikeOf u b ⟨oid, "like", b, blog.author, u⟩ = true := by simp [isLikeOf]
  have h0 : totalLikes s b = some blog.activity.total_likes := by simp [totalLikes, hb]
  rw [likeStep_eq oid s u b blog hb, unlikeStep_eq oid s u b blog hb]
  refine ⟨rfl, rfl, h0, ?_, rfl, h0, rfl, rfl, ?_, ?_, ?_, ?_⟩
  · have hf := find?_updateFirst (fun x : Blog => decide (x._id = b)) (incLikes 1)
      (fun _ => rfl) s.blogs
    rw [hb] at hf
    simp only [totalLikes, hf]
    rfl
  · exact length_eraseP_append_singleton _ _ _ hq
  · simp [likeCount, length_filter_eraseP, List.filter_append, hq]
  · intro pre m post hs hpre hm
    show (s.notifications ++ [(⟨oid, "like", b, blog.author, u⟩ : Notification)]).eraseP
      (isLikeOf u b) = pre ++ post ++ [⟨oid, "like", b, blog.author, u⟩]
    rw [hs, List.append_assoc, List.cons_append, eraseP_first_match _ _ _ _ hpre hm,
      List.append_assoc]
  · intro hzero
    have hl := (likeCount_eq_zero_iff s u b).1 hzero
    have he := eraseP_append_singleton (isLikeOf u b) s.notifications _ hl hq
    refine ⟨?_, ?_⟩
    · simp only [he]
      intro hmem
      have := hl _ hmem
      rw [hq] at this
      cases this
    · simp only [he]

/-- C3, amended, at `freshStore`, where the unlike gives the initial store back, and at
`likedStore`, where the older notification (`_id` 100) goes and the added one stays. -/
theorem likeBlog_pair_witness :
    (likeStep 101 freshStore 7 1).1.notifications = [⟨101, "like", 1, 9, 7⟩] ∧
    (unlikeStep 101 freshStore 7 1).1 = freshStore ∧
    (unlikeStep 101 likedStore 7 1).1.notifications = [⟨101, "like", 1, 9, 7⟩] :=
  have h := likeBlog_pair 101 freshStore 7 1 draftBlog (by decide)
  have k := likeBlog_pair 101 likedStore 7 1 draftBlog (by decide)
  ⟨h.2.1, (h.2.2.2.2.2.2.2.2.2.2.2 (by decide)).2,
    k.2.2.2.2.2.2.2.2.2.2.1 [] ⟨100, "like", 1, 9, 7⟩ [] rfl (by decide) (by decide)⟩

/-! ## Like-blog: the invariant -/

/-- The notifications after a like-blog request: unchanged, or one like notification of
the requesting user appended, or the first like notification of that user deleted. -/
theorem likeBlog_notifications (faults : LikeFaults) (oid : Nat) (s : Store)
    (user_id _id : Nat) (isLikedByUser : Bool) :
    (likeBlog faults oid s user_id _id isLikedByUser).1.notifications = s.notifications ∨
    (isLikedByUser = false ∧ ∃ author,
      (likeBlog faults oid s user_id _id isLikedByUser).1.notifications =
        s.notifications ++ [⟨oid, "like", _id, author, user_id⟩]) ∨
    (isLikedByUser = true ∧
      (likeBlog faults oid s user_id _id isLikedByUser).1.notifications =
        s.notifications.eraseP (isLikeOf user_id _id)) := by
  unfold likeBlog
  cases hupd : faults.update with
  | some e => exact Or.inl rfl
  | none =>
    cases isLikedByUser with
    | true =>
      cases hdel : faults.delete with
      | some e => exact Or.inl rfl
      | none => exact Or.inr (Or.inr ⟨rfl, rfl⟩)
    | false =>
      cases hfind : s.blogs.find? fun x => x._id = _id with
      | none => exact Or.inl (by simp [hfind])
      | some blog =>
        cases hsave : faults.save with
        | some e => exact Or.inl (by simp [hfind, hsave])
        | none => exact Or.inr (Or.inl ⟨rfl, blog.author, by simp [hfind, hsave]⟩)

/-- C4, as stated, fails: `likedStore` holds one like notification of user 7 on blog 1 and
satisfies the invariant; after a like-blog request of user 7 for blog 1 with
`isLikedByUser` false the store holds two. -/
theorem likeBlog_breaks_invariant :
    LikeInvariant likedStore ∧
    likeCount (likeBlog noFaults 101 likedStore 7 1 false).1 7 1 = 2 ∧
    ¬ LikeInvariant (likeBlog noFaults 101 likedStore 7 1 false).1 := by
  refine ⟨?_, by decide, fun h => absurd (h 7 1) (by decide)⟩
  intro u b
  by_cases h : isLikeOf u b ⟨100, "like", 1, 9, 7⟩ = true
  · simp [likeCount, likedStore, h]
  · simp [likeCount, likedStore, h]

/-- C4, amended. The invariant is kept by every like-blog request, whatever database call
fails, that either carries a truthy `isLikedByUser` or comes when the store holds no like
notification of the requesting user on the blog `_id`. -/
theorem likeBlog_preserves_invariant (faults : LikeFaults) (oid : Nat) (s : Store)
    (user_id _id : Nat) (isLikedByUser : Bool) (hinv : LikeInvariant s)
    (hpre : isLikedByUser = true ∨ likeCount s user_id _id = 0) :
    LikeInvariant (likeBlog faults oid s user_id _id isLikedByUser).1 := by
  intro u b
  have hs : (s.notifications.filter (isLikeOf u b)).length ≤ 1 := hinv u b
  show ((likeBlog faults oid s user_id _id isLikedByUser).1.notifications.filter
    (isLikeOf u b)).length ≤ 1
  rcases likeBlog_notifications faults oid s user_id _id isLikedByUser with
    h | ⟨hflag, author, h⟩ | ⟨_, h⟩
  · rw [h]
    exact hs
  · rw [h, List.filter_append, List.length_append]
    have hzero : (s.notifications.filter (isLikeOf user_id _id)).length = 0 := by
      rcases hpre with hp | hp
      · rw [hflag] at hp
        cases hp
      · exact hp
    by_cases hm : isLikeOf u b ⟨oid, "like", _id, author, user_id⟩ = true
    · have hub : user_id = u ∧ _id = b := by
        simp [isLikeOf] at hm
        exact ⟨hm.1, hm.2⟩
      obtain ⟨rfl, rfl⟩ := hub
      simp [hm, hzero]
    · simp [hm]
      exact hs
  · rw [h]
    exact Nat.le_trans ((List.eraseP_sublist s.notifications).filter _).length_le hs

/-- C4, amended, at `likedStore`: the unlike of user 7 on blog 1 keeps the invariant. -/
theorem likeBlog_preserves_invariant_witness :
    LikeInvariant (likeBlog noFaults 101 likedStore 7 1 true).1 :=
  likeBlog_preserves_invariant noFaults 101 likedStore 7 1 true
    (fun u b => by
      by_cases h : isLikeOf u b ⟨100, "like", 1, 9, 7⟩ = true
      · simp [likeCount, likedStore, h]
      · simp [likeCount, likedStore, h])
    (Or.inl rfl)

end BackendBlog
